import Mathlib

/-!
# Scan service (`backend/server.js`)

A shallow embedding of the two request handlers of `backend/server.js`:

* `POST /scan` (lines 53-105): validate `req.body.regNumber`, look the student up,
  store a scan record, send an SMS, answer;
* `GET /scan-history` (lines 108-117): return the scan collection sorted by `scanTime`,
  newest first.

The handlers talk to three collaborators that live outside the file: the MongoDB
collections `Student` and `Scan` (through Mongoose), the clock, and the Twilio client.
The collections are explicit state (`Db`); what the collaborators answer during one
request is an explicit input (`Env`).  Every call a handler makes to a collaborator is
recorded, in order, in the `calls` field of the handler's `Outcome`.  `console.log`
and `console.error` lines have no effect on the response or the collections and are
left out.
-/

namespace ScanService

/-! ## Values -/

/-- A JavaScript value as `bodyParser.json()` can put it in `req.body`, plus `undefined`.
Numbers are kept as rationals: the code only ever tests them for truthiness. -/
inductive JVal where
  | undefined : JVal
  | null : JVal
  | bool (b : Bool) : JVal
  | num (q : Rat) : JVal
  | str (s : String) : JVal
  | arr (items : List JVal) : JVal
  | obj (fields : List (String × JVal)) : JVal

/-- JavaScript truthiness, the meaning of `!x` being `false`: `undefined`, `null`,
`false`, `0` and `""` are falsy, everything else (objects and arrays included) is truthy. -/
def JVal.truthy : JVal → Bool
  | .undefined => false
  | .null => false
  | .bool b => b
  | .num q => decide (q ≠ 0)
  | .str s => decide (s ≠ "")
  | .arr _ => true
  | .obj _ => true

/-- Property read `v.key`.  An object yields the value stored under the key (the last
binding wins, as in `JSON.parse`) or `undefined`; any other truthy value has no such own
property and yields `undefined`.  The handler only reads a property of a truthy value. -/
def JVal.prop (key : String) : JVal → JVal
  | .obj fields =>
    match fields.reverse.find? (fun kv => kv.1 == key) with
    | some kv => kv.2
    | none => .undefined
  | _ => .undefined

/-- Whether the value is a string (`typeof v === "string"`). -/
def JVal.isString : JVal → Bool
  | .str _ => true
  | _ => false

/-- A thrown or rejected JavaScript error; only its `message` is ever read. -/
structure JsError where
  message : String

/-! ## Data model (lines 28-43) -/

/-- A document of the `Student` collection (`StudentSchema`, lines 29-33). -/
structure Student where
  regNumber : String
  name : String
  parentNumber : String

/-- A document of the `Scan` collection (`ScanSchema`, lines 37-42); `scanTime` is a
`Date`, kept as milliseconds since the epoch. -/
structure Scan where
  regNumber : String
  name : String
  parentNumber : String
  scanTime : Int

/-- The two collections, each in storage order. -/
structure Db where
  students : List Student
  scans : List Scan

/-- The argument of `client.messages.create` (lines 87-91). -/
structure Sms where
  body : String
  from_ : String
  to_ : String

/-- What the collaborators answer during one request. -/
structure Env where
  /-- Error with which `Student.findOne` rejects (connection lost, ...), if it does. -/
  findOneFault : Option JsError
  /-- How the driver answers `Student.findOne({ regNumber })` when `regNumber` is not a
  string; that is decided inside Mongoose, so it is left open here. -/
  findOneCast : JVal → List Student → Except JsError (Option Student)
  /-- How the `String` schema type casts a non-string `regNumber` handed to `new Scan`;
  a failed cast makes `save()` reject. -/
  castString : JVal → Except JsError String
  /-- Value of `Date.now()` when the scan document is built (default of `scanTime`,
  line 41). -/
  now : Int
  /-- Error with which `scanRecord.save()` rejects, if it does. -/
  saveFault : Option JsError
  /-- Result of `new Date().toLocaleString("en-US", { timeZone: "Asia/Kolkata" })`. -/
  localTime : String
  /-- Value of `process.env.TWILIO_PHONE_NUMBER`. -/
  twilioPhone : String
  /-- Answer of `client.messages.create`: the message (its `sid`) or an error. -/
  create : Sms → Except JsError String
  /-- Error with which `Scan.find().sort(...)` rejects, if it does. -/
  findFault : Option JsError

/-- A call made to a collaborator while handling a request. -/
inductive Call where
  /-- The lookup `Student.findOne({ regNumber })` was issued with this `regNumber`. -/
  | findOne (regNumber : JVal) : Call
  /-- The write `scanRecord.save()` was issued and stored this document. -/
  | saved (doc : Scan) : Call
  /-- The write `scanRecord.save()` was issued and rejected. -/
  | saveFailed : Call
  /-- The sender `client.messages.create` was invoked with this argument. -/
  | create (sms : Sms) : Call
  /-- The read `Scan.find().sort({ scanTime: -1 })` was issued. -/
  | find : Call

/-- Whether a call is an invocation of the notification sender. -/
def Call.isCreate : Call → Bool
  | .create _ => true
  | _ => false

/-- Whether a call is a `Student` lookup. -/
def Call.isFindOne : Call → Bool
  | .findOne _ => true
  | _ => false

/-- What `res.json` is given: a plain JSON value or the list of scan documents. -/
inductive Payload where
  | json (v : JVal) : Payload
  | records (docs : List Scan) : Payload

/-- The HTTP response: status code and JSON body. -/
structure Response where
  status : Nat
  body : Payload

/-- The result of handling one request: the response, the `Scan` collection afterwards,
and the collaborator calls made, in order.  No handler writes to `Student`. -/
structure Outcome where
  response : Response
  scans : List Scan
  calls : List Call

/-! ## Collaborators -/

/-- The lookup `Student.findOne({ regNumber })` (line 65): for a string, the first
student whose `regNumber` equals it, or `null`. -/
def Student.findOne (env : Env) (students : List Student) (regNumber : JVal) :
    Except JsError (Option Student) :=
  match env.findOneFault with
  | some err => .error err
  | none =>
    match regNumber with
    | .str r => .ok (students.find? (fun s => s.regNumber == r))
    | v => env.findOneCast v students

/-- The constructor call `new Scan({ regNumber, name, parentNumber })` (lines 74-78):
`scanTime` takes its default `Date.now()`.  A cast failure is kept with the document and
surfaces in `save`. -/
def Scan.create (env : Env) (regNumber : JVal) (name parentNumber : String) :
    Except JsError Scan :=
  match regNumber with
  | .str r => .ok { regNumber := r, name := name, parentNumber := parentNumber,
                    scanTime := env.now }
  | v =>
    match env.castString v with
    | .ok r => .ok { regNumber := r, name := name, parentNumber := parentNumber,
                     scanTime := env.now }
    | .error err => .error err

/-- The write `scanRecord.save()` (line 79): on success the document is appended to the
collection; the result is the stored document and the new collection. -/
def Scan.save (env : Env) (scans : List Scan) (doc : Except JsError Scan) :
    Except JsError (Scan × List Scan) :=
  match doc with
  | .error err => .error err
  | .ok d =>
    match env.saveFault with
    | some err => .error err
    | none => .ok (d, scans ++ [d])

/-- The message text of line 88. -/
def smsBody (name scanTime : String) : String :=
  "Security Alert: " ++ name ++ " scanned ID at " ++ scanTime ++ ". Sent from College."

/-- The argument of `client.messages.create` built on lines 87-91. -/
def smsFor (env : Env) (student : Student) : Sms :=
  { body := smsBody student.name env.localTime,
    from_ := env.twilioPhone,
    to_ := student.parentNumber }

/-! ## Responses -/

/-- Line 59: `res.status(400).json({ error: "Missing regNumber" })`. -/
def missingRegNumber : Response :=
  ⟨400, .json (.obj [("error", .str "Missing regNumber")])⟩

/-- Line 68: `res.status(404).json({ error: "Student not found" })`. -/
def studentNotFound : Response :=
  ⟨404, .json (.obj [("error", .str "Student not found")])⟩

/-- Line 94: `res.json({ success: true, message: "SMS sent to <parentNumber>" })`. -/
def smsSent (student : Student) : Response :=
  ⟨200, .json (.obj [("success", .bool true),
                     ("message", .str ("SMS sent to " ++ student.parentNumber))])⟩

/-- Line 98: `res.status(500).json({ error: "Failed to send SMS", details })`. -/
def smsFailed (twilioError : JsError) : Response :=
  ⟨500, .json (.obj [("error", .str "Failed to send SMS"),
                     ("details", .str twilioError.message)])⟩

/-- Line 103: `res.status(500).json({ error: "Internal Server Error", details })`. -/
def internalServerError (error : JsError) : Response :=
  ⟨500, .json (.obj [("error", .str "Internal Server Error"),
                     ("details", .str error.message)])⟩

/-- Line 115: `res.status(500).json({ error: "Failed to retrieve records" })`. -/
def retrieveFailed : Response :=
  ⟨500, .json (.obj [("error", .str "Failed to retrieve records")])⟩

/-! ## Handlers -/

/-- The handler of `POST /scan` (lines 53-105), `body` being `req.body`. -/
def postScan (env : Env) (db : Db) (body : JVal) : Outcome :=
  if !body.truthy || !(body.prop "regNumber").truthy then
    ⟨missingRegNumber, db.scans, []⟩
  else
    let regNumber := body.prop "regNumber"
    match Student.findOne env db.students regNumber with
    | .error error => ⟨internalServerError error, db.scans, [.findOne regNumber]⟩
    | .ok none => ⟨studentNotFound, db.scans, [.findOne regNumber]⟩
    | .ok (some student) =>
      match Scan.save env db.scans
          (Scan.create env regNumber student.name student.parentNumber) with
      | .error error =>
        ⟨internalServerError error, db.scans, [.findOne regNumber, .saveFailed]⟩
      | .ok (doc, scans) =>
        match env.create (smsFor env student) with
        | .ok _sid =>
          ⟨smsSent student, scans,
            [.findOne regNumber, .saved doc, .create (smsFor env student)]⟩
        | .error twilioError =>
          ⟨smsFailed twilioError, scans,
            [.findOne regNumber, .saved doc, .create (smsFor env student)]⟩

/-- The order of `.sort({ scanTime: -1 })`: `a` may come before `b` when `a` is not
older than `b`. -/
def Scan.notOlder (a b : Scan) : Prop := b.scanTime ≤ a.scanTime

instance : DecidableRel Scan.notOlder := fun a b =>
  inferInstanceAs (Decidable (b.scanTime ≤ a.scanTime))

/-- The read `Scan.find().sort({ scanTime: -1 })` (line 111): every document, newest
first. -/
def Scan.findSorted (scans : List Scan) : List Scan :=
  scans.insertionSort Scan.notOlder

/-- The handler of `GET /scan-history` (lines 108-117). -/
def getScanHistory (env : Env) (db : Db) : Outcome :=
  match env.findFault with
  | some _ => ⟨retrieveFailed, db.scans, [.find]⟩
  | none => ⟨⟨200, .records (Scan.findSorted db.scans)⟩, db.scans, [.find]⟩

/-! ## Reading a response -/

/-- The string-valued fields of a JSON object sent as response body. -/
def Response.texts (r : Response) : List String :=
  match r.body with
  | .json (.obj fields) =>
    fields.filterMap (fun kv => match kv.2 with
      | .str s => some s
      | _ => none)
  | _ => []

/-- Whether some string field of the response body contains `needle` as a substring. -/
def Response.includes (r : Response) (needle : String) : Bool :=
  r.texts.any (fun s => decide (needle.data <:+: s.data))

/-! ## A concrete scenario

The example of the specification: student `S100`, Asha, parent `+911234567890`. -/

/-- The student of the example scenario. -/
def asha : Student := ⟨"S100", "Asha", "+911234567890"⟩

/-- A directory holding only `asha`, and an empty scan collection. -/
def demoDb : Db := ⟨[asha], []⟩

/-- A request in which every collaborator answers normally; the sender returns the
message identifier `SM1`.  Non-string filters match nothing and do not cast. -/
def demoEnv : Env :=
  { findOneFault := none
    findOneCast := fun _ _ => .ok none
    castString := fun _ => .error ⟨"Cast to string failed"⟩
    now := 1700000000000
    saveFault := none
    localTime := "11/14/2023, 10:13:20 PM"
    twilioPhone := "+15005550006"
    create := fun _ => .ok "SM1"
    findFault := none }

/-- The request body `{ "regNumber": "S100" }`. -/
def demoBody : JVal := .obj [("regNumber", .str "S100")]

/-! ## Basic facts -/

instance : IsTotal Scan Scan.notOlder := ⟨fun a b => Int.le_total b.scanTime a.scanTime⟩

instance : IsTrans Scan Scan.notOlder :=
  ⟨fun _ _ _ hab hbc => Int.le_trans hbc hab⟩

theorem JVal.truthy_of_prop_truthy {key : String} {body : JVal}
    (h : (body.prop key).truthy = true) : body.truthy = true := by
  cases body <;> simp_all [JVal.prop, JVal.truthy]

theorem JVal.truthy_of_prop_ne_undefined {key : String} {body : JVal}
    (h : body.prop key ≠ .undefined) : body.truthy = true := by
  cases body <;> simp_all [JVal.prop, JVal.truthy]

/-- A request that fails the check of line 57 is answered on line 59. -/
theorem postScan_of_falsy (env : Env) (db : Db) (body : JVal)
    (h : body.truthy = false ∨ (body.prop "regNumber").truthy = false) :
    postScan env db body = ⟨missingRegNumber, db.scans, []⟩ := by
  unfold postScan
  rcases h with h | h <;> simp [h]

/-- A request that passes the check of line 57 goes on to the lookup of line 65. -/
theorem postScan_of_truthy (env : Env) (db : Db) (body : JVal)
    (h : (body.prop "regNumber").truthy = true) :
    postScan env db body =
      match Student.findOne env db.students (body.prop "regNumber") with
      | .error error =>
        ⟨internalServerError error, db.scans, [.findOne (body.prop "regNumber")]⟩
      | .ok none => ⟨studentNotFound, db.scans, [.findOne (body.prop "regNumber")]⟩
      | .ok (some student) =>
        match Scan.save env db.scans
            (Scan.create env (body.prop "regNumber") student.name student.parentNumber) with
        | .error error =>
          ⟨internalServerError error, db.scans,
            [.findOne (body.prop "regNumber"), .saveFailed]⟩
        | .ok (doc, scans) =>
          match env.create (smsFor env student) with
          | .ok _sid =>
            ⟨smsSent student, scans,
              [.findOne (body.prop "regNumber"), .saved doc, .create (smsFor env student)]⟩
          | .error twilioError =>
            ⟨smsFailed twilioError, scans,
              [.findOne (body.prop "regNumber"), .saved doc,
                .create (smsFor env student)]⟩ := by
  have hb := JVal.truthy_of_prop_truthy h
  unfold postScan
  simp [h, hb]

/-- A successful write appends exactly the document it was given. -/
theorem Scan.save_ok {env : Env} {scans : List Scan} {doc : Except JsError Scan}
    {d : Scan} {scans' : List Scan} (h : Scan.save env scans doc = .ok (d, scans')) :
    doc = .ok d ∧ env.saveFault = none ∧ scans' = scans ++ [d] := by
  unfold Scan.save at h
  cases doc with
  | error err => simp at h
  | ok d0 =>
    cases hf : env.saveFault with
    | some err => simp [hf] at h
    | none =>
      simp [hf] at h
      obtain ⟨h1, h2⟩ := h
      subst h1
      exact ⟨rfl, rfl, h2.symm⟩

/-- A document built by `new Scan` carries the name and parent number it was given. -/
theorem Scan.create_ok {env : Env} {v : JVal} {name parentNumber : String} {d : Scan}
    (h : Scan.create env v name parentNumber = .ok d) :
    d.name = name ∧ d.parentNumber = parentNumber ∧ d.scanTime = env.now := by
  unfold Scan.create at h
  cases v <;> simp at h
  case str r => subst h; exact ⟨rfl, rfl, rfl⟩
  all_goals
    split at h
    · simp at h; subst h; exact ⟨rfl, rfl, rfl⟩
    · simp at h

/-- For a string, the lookup finds nothing exactly when it does not reject and no student
of the directory has that registration number. -/
theorem Student.findOne_str_eq_none_iff (env : Env) (students : List Student) (r : String) :
    Student.findOne env students (.str r) = .ok none ↔
      env.findOneFault = none ∧ ∀ s ∈ students, s.regNumber ≠ r := by
  unfold Student.findOne
  cases hf : env.findOneFault with
  | some err => simp
  | none => simp [List.find?_eq_none]

/-- For a string, a student found by the lookup is in the directory and has that
registration number. -/
theorem Student.findOne_str_some {env : Env} {students : List Student} {r : String}
    {s : Student} (h : Student.findOne env students (.str r) = .ok (some s)) :
    s ∈ students ∧ s.regNumber = r := by
  unfold Student.findOne at h
  cases hf : env.findOneFault with
  | some err => simp [hf] at h
  | none =>
    simp [hf] at h
    exact ⟨List.mem_of_find?_eq_some h, by simpa using List.find?_some h⟩

/-- For a string that some student of the directory carries, a lookup that does not
reject finds a student with that registration number. -/
theorem Student.findOne_str_of_mem {env : Env} {students : List Student} {r : String}
    {s : Student} (hf : env.findOneFault = none) (hs : s ∈ students)
    (hr : s.regNumber = r) :
    ∃ s', Student.findOne env students (.str r) = .ok (some s') ∧ s'.regNumber = r := by
  cases hfind : students.find? (fun s => s.regNumber == r) with
  | none =>
    rw [List.find?_eq_none] at hfind
    exact absurd (by simpa using hr) (hfind s hs)
  | some s' =>
    refine ⟨s', ?_, by simpa using List.find?_some hfind⟩
    unfold Student.findOne
    simp [hf, hfind]

/-! ## `POST /scan`: validation and lookup -/

/-- C1: a `POST /scan` request whose body is missing, or whose `regNumber` is absent
(`undefined` or `null`) or the empty string, is answered with status 400 and body
`{error: "Missing regNumber"}`, whatever the directory, the scan collection and the
collaborators; no call is made to any collaborator (so no `Student` lookup and no
invocation of the notification sender) and the scan collection is left as it was. -/
theorem postScan_missing_regNumber (env : Env) (db : Db) (body : JVal)
    (h : body = .undefined ∨ body = .null ∨ body.prop "regNumber" = .undefined ∨
      body.prop "regNumber" = .null ∨ body.prop "regNumber" = .str "") :
    (postScan env db body).response.status = 400 ∧
    (postScan env db body).response.body =
      .json (.obj [("error", .str "Missing regNumber")]) ∧
    (postScan env db body).calls = [] ∧
    (postScan env db body).calls.countP Call.isFindOne = 0 ∧
    (postScan env db body).calls.countP Call.isCreate = 0 ∧
    (postScan env db body).scans = db.scans := by
  have hf : body.truthy = false ∨ (body.prop "regNumber").truthy = false := by
    rcases h with h | h | h | h | h
    · exact Or.inl (by rw [h]; rfl)
    · exact Or.inl (by rw [h]; rfl)
    · exact Or.inr (by rw [h]; rfl)
    · exact Or.inr (by rw [h]; rfl)
    · exact Or.inr (by rw [h]; simp [JVal.truthy])
  rw [postScan_of_falsy env db body hf]
  simp [missingRegNumber]

/-- C1 at the body `{ "regNumber": "" }`. -/
theorem postScan_missing_regNumber_witness :
    (postScan demoEnv demoDb (.obj [("regNumber", .str "")])).response.status = 400 ∧
    (postScan demoEnv demoDb (.obj [("regNumber", .str "")])).response.body =
      .json (.obj [("error", .str "Missing regNumber")]) ∧
    (postScan demoEnv demoDb (.obj [("regNumber", .str "")])).calls = [] ∧
    (postScan demoEnv demoDb (.obj [("regNumber", .str "")])).calls.countP
      Call.isFindOne = 0 ∧
    (postScan demoEnv demoDb (.obj [("regNumber", .str "")])).calls.countP
      Call.isCreate = 0 ∧
    (postScan demoEnv demoDb (.obj [("regNumber", .str "")])).scans = demoDb.scans :=
  postScan_missing_regNumber demoEnv demoDb (.obj [("regNumber", .str "")])
    (Or.inr (Or.inr (Or.inr (Or.inr (by simp [JVal.prop])))))

/-- C2: when the `regNumber` of a `POST /scan` request passes the check of line 57 and
the lookup in the `Student` directory finds no student for it, the response is status 404
with body `{error: "Student not found"}`, the scan collection is unchanged (no scan
document is created) and the notification sender is not invoked. -/
theorem postScan_student_not_found (env : Env) (db : Db) (body : JVal)
    (hvalid : (body.prop "regNumber").truthy = true)
    (hfind : Student.findOne env db.students (body.prop "regNumber") = .ok none) :
    (postScan env db body).response.status = 404 ∧
    (postScan env db body).response.body =
      .json (.obj [("error", .str "Student not found")]) ∧
    (postScan env db body).scans = db.scans ∧
    (postScan env db body).calls.countP Call.isCreate = 0 := by
  rw [postScan_of_truthy env db body hvalid, hfind]
  simp [studentNotFound, Call.isCreate]

/-- C2 at the body `{ "regNumber": "S999" }` with a directory that only holds `S100`. -/
theorem postScan_student_not_found_witness :
    (JVal.prop "regNumber" (.obj [("regNumber", .str "S999")])).truthy = true ∧
    Student.findOne demoEnv demoDb.students
      (JVal.prop "regNumber" (.obj [("regNumber", .str "S999")])) = .ok none ∧
    (postScan demoEnv demoDb (.obj [("regNumber", .str "S999")])).response.status = 404 :=
  ⟨by simp [JVal.prop, JVal.truthy],
   by simp [JVal.prop, Student.findOne, demoEnv, demoDb, asha],
   (postScan_student_not_found demoEnv demoDb (.obj [("regNumber", .str "S999")])
      (by simp [JVal.prop, JVal.truthy])
      (by simp [JVal.prop, Student.findOne, demoEnv, demoDb, asha])).1⟩

/-! ## `POST /scan`: ledger write and notification -/

/-- C3: when the `regNumber` of a `POST /scan` request is a (non-empty) string for which
the lookup returns a student, the write of the scan document succeeds and the
notification sender succeeds, the response is status 200 with `success: true`, and the
scan collection afterwards is the collection before followed by exactly one new document
whose `regNumber`, `name` and `parentNumber` are those of the student found. -/
theorem postScan_success (env : Env) (db : Db) (body : JVal) (r : String) (s : Student)
    (sid : String)
    (hreg : body.prop "regNumber" = .str r) (hr : r ≠ "")
    (hfind : Student.findOne env db.students (.str r) = .ok (some s))
    (hsave : env.saveFault = none)
    (hsms : env.create (smsFor env s) = .ok sid) :
    (postScan env db body).response.status = 200 ∧
    (postScan env db body).response.body =
      .json (.obj [("success", .bool true),
                   ("message", .str ("SMS sent to " ++ s.parentNumber))]) ∧
    ∃ doc : Scan, (postScan env db body).scans = db.scans ++ [doc] ∧
      doc.regNumber = s.regNumber ∧ doc.name = s.name ∧
      doc.parentNumber = s.parentNumber ∧ doc.scanTime = env.now := by
  have hvalid : (body.prop "regNumber").truthy = true := by
    rw [hreg]; simp [JVal.truthy, hr]
  have hs := (Student.findOne_str_some hfind).2
  rw [postScan_of_truthy env db body hvalid, hreg, hfind]
  simp only [Scan.create, Scan.save, hsave, hsms]
  refine ⟨rfl, rfl, _, rfl, ?_, rfl, rfl, rfl⟩
  exact hs.symm

/-- C3 in the example scenario: `{ "regNumber": "S100" }` with Asha in the directory. -/
theorem postScan_success_witness :
    (postScan demoEnv demoDb demoBody).response.status = 200 ∧
    (postScan demoEnv demoDb demoBody).scans =
      [⟨"S100", "Asha", "+911234567890", 1700000000000⟩] := by
  have h := postScan_success demoEnv demoDb demoBody "S100" asha "SM1"
    (by simp [demoBody, JVal.prop]) (by decide)
    (by simp [Student.findOne, demoEnv, demoDb, asha]) rfl rfl
  refine ⟨h.1, ?_⟩
  simp [postScan, demoBody, JVal.prop, JVal.truthy, Student.findOne, demoEnv, demoDb,
    asha, Scan.create, Scan.save, smsFor]

/-- C4: when the `regNumber` of a `POST /scan` request passes validation, the lookup
returns a student, the write of the scan document succeeds and the notification sender
fails with an error `e`, the new document stays in the scan collection (the collection
afterwards is the collection before followed by that document) and the response is
status 500 with body `{error: "Failed to send SMS", details: e.message}`, which is not
the generic `{error: "Internal Server Error", details}` response for any error. -/
theorem postScan_sms_failure (env : Env) (db : Db) (body : JVal) (s : Student)
    (doc : Scan) (scans : List Scan) (e : JsError)
    (hvalid : (body.prop "regNumber").truthy = true)
    (hfind : Student.findOne env db.students (body.prop "regNumber") = .ok (some s))
    (hsave : Scan.save env db.scans
      (Scan.create env (body.prop "regNumber") s.name s.parentNumber) = .ok (doc, scans))
    (hsms : env.create (smsFor env s) = .error e) :
    (postScan env db body).scans = db.scans ++ [doc] ∧
    doc.name = s.name ∧ doc.parentNumber = s.parentNumber ∧
    (postScan env db body).response.status = 500 ∧
    (postScan env db body).response.body =
      .json (.obj [("error", .str "Failed to send SMS"), ("details", .str e.message)]) ∧
    ∀ e' : JsError, (postScan env db body).response ≠ internalServerError e' := by
  obtain ⟨hdoc, -, hscans⟩ := Scan.save_ok hsave
  obtain ⟨hn, hp, -⟩ := Scan.create_ok hdoc
  rw [postScan_of_truthy env db body hvalid, hfind]
  simp only [hsave, hsms]
  refine ⟨hscans, hn, hp, rfl, rfl, ?_⟩
  intro e' h
  simp [smsFailed, internalServerError] at h

/-- C4 in the example scenario, with a sender that fails with `"Unreachable"`. -/
theorem postScan_sms_failure_witness :
    (postScan { demoEnv with create := fun _ => .error ⟨"Unreachable"⟩ } demoDb
        demoBody).scans =
      demoDb.scans ++ [⟨"S100", "Asha", "+911234567890", 1700000000000⟩] ∧
    (postScan { demoEnv with create := fun _ => .error ⟨"Unreachable"⟩ } demoDb
        demoBody).response.status = 500 :=
  have h := postScan_sms_failure { demoEnv with create := fun _ => .error ⟨"Unreachable"⟩ }
    demoDb demoBody asha ⟨"S100", "Asha", "+911234567890", 1700000000000⟩
    (demoDb.scans ++ [⟨"S100", "Asha", "+911234567890", 1700000000000⟩]) ⟨"Unreachable"⟩
    (by simp [demoBody, JVal.prop, JVal.truthy])
    (by simp [demoBody, JVal.prop, Student.findOne, demoEnv, demoDb, asha])
    (by simp [demoBody, JVal.prop, Scan.create, Scan.save, demoEnv, asha])
    rfl
  ⟨h.1, h.2.2.2.1⟩

/-- C7, as stated, fails: in the example scenario the sender returns the message
identifier `SM1`, the request ends in the success result, and no field of the response
contains `SM1`; the response is `{success: true, message: "SMS sent to +911234567890"}`. -/
theorem postScan_success_omits_sid :
    demoEnv.create (smsFor demoEnv asha) = .ok "SM1" ∧
    (postScan demoEnv demoDb demoBody).response.status = 200 ∧
    (postScan demoEnv demoDb demoBody).response.texts = ["SMS sent to +911234567890"] ∧
    (postScan demoEnv demoDb demoBody).response.includes "SM1" = false := by
  have hresp : (postScan demoEnv demoDb demoBody).response = smsSent asha := by
    simp [postScan, demoBody, JVal.prop, JVal.truthy, Student.findOne, demoEnv, demoDb,
      asha, Scan.create, Scan.save, smsFor]
  rw [hresp]
  refine ⟨rfl, rfl, rfl, ?_⟩
  simp only [Response.includes, Response.texts, smsSent, asha]
  decide

/-- C7, amended: whenever a `POST /scan` request ends in the success result (student
found, scan document written, sender returned a message identifier `sid`), the response
is status 200 with body `{success: true, message: "SMS sent to <parentNumber>"}`; it is
built from the student alone and is the same whatever identifier the sender returned. -/
theorem postScan_success_response (env : Env) (db : Db) (body : JVal) (s : Student)
    (doc : Scan) (scans : List Scan) (sid : String)
    (hvalid : (body.prop "regNumber").truthy = true)
    (hfind : Student.findOne env db.students (body.prop "regNumber") = .ok (some s))
    (hsave : Scan.save env db.scans
      (Scan.create env (body.prop "regNumber") s.name s.parentNumber) = .ok (doc, scans))
    (hsms : env.create (smsFor env s) = .ok sid) :
    (postScan env db body).response.status = 200 ∧
    (postScan env db body).response.body =
      .json (.obj [("success", .bool true),
                   ("message", .str ("SMS sent to " ++ s.parentNumber))]) ∧
    ∀ sid' : String,
      (postScan { env with create := fun _ => .ok sid' } db body).response =
        (postScan env db body).response := by
  have key : ∀ env' : Env, env'.findOneFault = env.findOneFault →
      env'.findOneCast = env.findOneCast → env'.castString = env.castString →
      env'.now = env.now → env'.saveFault = env.saveFault →
      (∃ sid', env'.create (smsFor env' s) = .ok sid') →
      (postScan env' db body).response = smsSent s := by
    intro env' h1 h2 h3 h4 h5 ⟨sid', h6⟩
    have hfind' : Student.findOne env' db.students (body.prop "regNumber") =
        .ok (some s) := by
      rw [← hfind]; unfold Student.findOne; rw [h1, h2]
    have hsave' : Scan.save env' db.scans
        (Scan.create env' (body.prop "regNumber") s.name s.parentNumber) =
        .ok (doc, scans) := by
      rw [← hsave]; unfold Scan.save Scan.create; rw [h3, h4, h5]
    rw [postScan_of_truthy env' db body hvalid, hfind']
    simp only [hsave', h6]
  have h0 := key env rfl rfl rfl rfl rfl ⟨sid, hsms⟩
  refine ⟨by rw [h0]; rfl, by rw [h0]; rfl, ?_⟩
  intro sid'
  rw [h0]
  exact key _ rfl rfl rfl rfl rfl ⟨sid', rfl⟩

/-- C7 amended, in the example scenario. -/
theorem postScan_success_response_witness :
    (postScan demoEnv demoDb demoBody).response.status = 200 ∧
    (postScan demoEnv demoDb demoBody).response.body =
      .json (.obj [("success", .bool true),
                   ("message", .str ("SMS sent to " ++ asha.parentNumber))]) :=
  have h := postScan_success_response demoEnv demoDb demoBody asha
    ⟨"S100", "Asha", "+911234567890", 1700000000000⟩
    (demoDb.scans ++ [⟨"S100", "Asha", "+911234567890", 1700000000000⟩]) "SM1"
    (by simp [demoBody, JVal.prop, JVal.truthy])
    (by simp [demoBody, JVal.prop, Student.findOne, demoEnv, demoDb, asha])
    (by simp [demoBody, JVal.prop, Scan.create, Scan.save, demoEnv, asha])
    rfl
  ⟨h.1, h.2.1⟩

/-- C9: when the `regNumber` of a `POST /scan` request passes validation, the lookup
returns a student and the write of the scan document succeeds, the notification sender
is invoked exactly once; the destination of that invocation is the student's
`parentNumber` and its body is
`"Security Alert: " ++ name ++ " scanned ID at " ++ timestamp ++ ". Sent from College."`,
which contains the student's `name` as a substring. -/
theorem postScan_notifies_parent (env : Env) (db : Db) (body : JVal) (s : Student)
    (doc : Scan) (scans : List Scan)
    (hvalid : (body.prop "regNumber").truthy = true)
    (hfind : Student.findOne env db.students (body.prop "regNumber") = .ok (some s))
    (hsave : Scan.save env db.scans
      (Scan.create env (body.prop "regNumber") s.name s.parentNumber) = .ok (doc, scans)) :
    (postScan env db body).calls.countP Call.isCreate = 1 ∧
    ∃ sms : Sms, (postScan env db body).calls.filter Call.isCreate = [.create sms] ∧
      sms.to_ = s.parentNumber ∧
      sms.body = "Security Alert: " ++ s.name ++ " scanned ID at " ++ env.localTime ++
        ". Sent from College." ∧
      ∃ before after : String, sms.body = before ++ s.name ++ after := by
  have hcalls : (postScan env db body).calls =
      [.findOne (body.prop "regNumber"), .saved doc, .create (smsFor env s)] := by
    rw [postScan_of_truthy env db body hvalid, hfind]
    simp only [hsave]
    cases env.create (smsFor env s) <;> rfl
  rw [hcalls]
  refine ⟨by simp [List.countP_cons, Call.isCreate], smsFor env s,
    by simp [List.filter, Call.isCreate], rfl, rfl, ?_⟩
  exact ⟨"Security Alert: ", " scanned ID at " ++ env.localTime ++ ". Sent from College.",
    by simp [smsFor, smsBody, String.append_assoc]⟩

/-- C9 in the example scenario: the sender is invoked once. -/
theorem postScan_notifies_parent_witness :
    (postScan demoEnv demoDb demoBody).calls.countP Call.isCreate = 1 :=
  (postScan_notifies_parent demoEnv demoDb demoBody asha
    ⟨"S100", "Asha", "+911234567890", 1700000000000⟩
    (demoDb.scans ++ [⟨"S100", "Asha", "+911234567890", 1700000000000⟩])
    (by simp [demoBody, JVal.prop, JVal.truthy])
    (by simp [demoBody, JVal.prop, Student.findOne, demoEnv, demoDb, asha])
    (by simp [demoBody, JVal.prop, Scan.create, Scan.save, demoEnv, asha])).1

/-! ## `POST /scan`: values that are not strings -/

/-- C6, as stated, fails: the body `{ "regNumber": true }` carries a `regNumber` that is
present and not a string, yet the check of line 57 lets it through; the lookup is issued
with the value `true` and, nothing being found, the response is 404 and not 400. -/
theorem postScan_boolean_regNumber_not_rejected :
    (JVal.prop "regNumber" (.obj [("regNumber", .bool true)])).isString = false ∧
    (postScan demoEnv demoDb (.obj [("regNumber", .bool true)])).response.status = 404 ∧
    (postScan demoEnv demoDb (.obj [("regNumber", .bool true)])).response.status ≠ 400 ∧
    (postScan demoEnv demoDb (.obj [("regNumber", .bool true)])).calls.countP
      Call.isFindOne = 1 := by
  have h : postScan demoEnv demoDb (.obj [("regNumber", .bool true)]) =
      ⟨studentNotFound, [], [.findOne (.bool true)]⟩ := by
    simp [postScan, JVal.prop, JVal.truthy, Student.findOne, demoEnv, demoDb]
  rw [h]
  refine ⟨by simp [JVal.prop, JVal.isString], rfl, by simp [studentNotFound], ?_⟩
  simp [Call.isFindOne]

/-- C6, amended: for a `POST /scan` request whose `regNumber` is present and not a
string, the check of line 57 tests truthiness only.  A falsy value (`null`, `false`, `0`)
is answered with status 400 and body `{error: "Missing regNumber"}`, with no call to any
collaborator and the scan collection unchanged.  A truthy value (`true`, a non-zero
number, an object, an array) passes: the response is not status 400, and the first call
made is the one `Student` lookup, issued with that value. -/
theorem postScan_non_string_regNumber (env : Env) (db : Db) (body : JVal)
    (hpresent : body.prop "regNumber" ≠ .undefined)
    (hns : (body.prop "regNumber").isString = false) :
    ((body.prop "regNumber").truthy = false →
      (body.prop "regNumber" = .null ∨ body.prop "regNumber" = .bool false ∨
        body.prop "regNumber" = .num 0) ∧
      (postScan env db body).response.status = 400 ∧
      (postScan env db body).response.body =
        .json (.obj [("error", .str "Missing regNumber")]) ∧
      (postScan env db body).calls = [] ∧
      (postScan env db body).scans = db.scans) ∧
    ((body.prop "regNumber").truthy = true →
      (body.prop "regNumber" = .bool true ∨
        (∃ q, q ≠ 0 ∧ body.prop "regNumber" = .num q) ∨
        (∃ items, body.prop "regNumber" = .arr items) ∨
        (∃ fields, body.prop "regNumber" = .obj fields)) ∧
      (postScan env db body).response.status ≠ 400 ∧
      (postScan env db body).calls.head? = some (.findOne (body.prop "regNumber")) ∧
      (postScan env db body).calls.countP Call.isFindOne = 1) := by
  constructor
  · intro hf
    refine ⟨?_, ?_⟩
    · cases hv : body.prop "regNumber" <;>
        simp_all [JVal.truthy, JVal.isString]
    rw [postScan_of_falsy env db body (Or.inr hf)]
    simp [missingRegNumber]
  · intro ht
    refine ⟨?_, ?_⟩
    · cases hv : body.prop "regNumber" <;>
        simp_all [JVal.truthy, JVal.isString]
    rw [postScan_of_truthy env db body ht]
    split
    · simp [internalServerError, Call.isFindOne]
    · simp [studentNotFound, Call.isFindOne]
    · split
      · simp [internalServerError, Call.isFindOne]
      · split <;> simp [smsSent, smsFailed, Call.isFindOne]

/-- C6 amended, at the body `{ "regNumber": true }`: not 400, and a lookup is issued. -/
theorem postScan_non_string_regNumber_witness :
    (postScan demoEnv demoDb (.obj [("regNumber", .bool true)])).response.status ≠ 400 ∧
    (postScan demoEnv demoDb (.obj [("regNumber", .bool true)])).calls.head? =
      some (.findOne (JVal.prop "regNumber" (.obj [("regNumber", .bool true)]))) ∧
    (postScan demoEnv demoDb (.obj [("regNumber", .bool true)])).calls.countP
      Call.isFindOne = 1 :=
  ((postScan_non_string_regNumber demoEnv demoDb (.obj [("regNumber", .bool true)])
    (by simp [JVal.prop]) (by simp [JVal.prop, JVal.isString])).2
    (by simp [JVal.prop, JVal.truthy])).2

/-! ## `POST /scan`: order of the write and the notification -/

/-- C8: when the `regNumber` of a `POST /scan` request passes validation, the lookup
returns a student and the write of the scan document fails with an error `e`, the
notification sender is not invoked, the scan collection is unchanged and the response is
status 500 with body `{error: "Internal Server Error", details: e.message}`.  And in
every execution of the handler the sender is invoked at most once, and when it is
invoked the calls made are, in this order, the lookup, a write that stored a document,
and the invocation, the scan collection being the one before followed by that document. -/
theorem postScan_write_before_notify (env : Env) (db : Db) (body : JVal) :
    (∀ (s : Student) (e : JsError),
      (body.prop "regNumber").truthy = true →
      Student.findOne env db.students (body.prop "regNumber") = .ok (some s) →
      Scan.save env db.scans
        (Scan.create env (body.prop "regNumber") s.name s.parentNumber) = .error e →
      (postScan env db body).calls.countP Call.isCreate = 0 ∧
      (postScan env db body).scans = db.scans ∧
      (postScan env db body).response.status = 500 ∧
      (postScan env db body).response.body =
        .json (.obj [("error", .str "Internal Server Error"),
                     ("details", .str e.message)])) ∧
    (postScan env db body).calls.countP Call.isCreate ≤ 1 ∧
    ∀ sms : Sms, Call.create sms ∈ (postScan env db body).calls →
      ∃ doc : Scan,
        (postScan env db body).calls =
          [.findOne (body.prop "regNumber"), .saved doc, .create sms] ∧
        (postScan env db body).scans = db.scans ++ [doc] := by
  refine ⟨?_, ?_⟩
  · intro s e hvalid hfind hsave
    rw [postScan_of_truthy env db body hvalid, hfind]
    simp only [hsave]
    simp [internalServerError, Call.isCreate]
  · cases ht : (body.prop "regNumber").truthy with
    | false =>
      rw [postScan_of_falsy env db body (Or.inr ht)]
      simp
    | true =>
      rw [postScan_of_truthy env db body ht]
      split
      · simp [Call.isCreate]
      · simp [Call.isCreate]
      · rename_i student _
        cases hsave : Scan.save env db.scans
            (Scan.create env (body.prop "regNumber") student.name student.parentNumber) with
        | error err => simp [Call.isCreate]
        | ok res =>
          obtain ⟨doc, scans⟩ := res
          have hscans := (Scan.save_ok hsave).2.2
          cases env.create (smsFor env student) <;>
            simp [Call.isCreate, List.countP_cons, hscans]

/-- C8 in the example scenario with a write that fails with `"disk full"`: the sender
is not invoked and the response is 500. -/
theorem postScan_write_before_notify_witness :
    (postScan { demoEnv with saveFault := some ⟨"disk full"⟩ } demoDb
      demoBody).calls.countP Call.isCreate = 0 ∧
    (postScan { demoEnv with saveFault := some ⟨"disk full"⟩ } demoDb demoBody).scans =
      demoDb.scans ∧
    (postScan { demoEnv with saveFault := some ⟨"disk full"⟩ } demoDb
      demoBody).response.status = 500 ∧
    (postScan { demoEnv with saveFault := some ⟨"disk full"⟩ } demoDb
      demoBody).response.body =
        .json (.obj [("error", .str "Internal Server Error"),
                     ("details", .str "disk full")]) :=
  (postScan_write_before_notify { demoEnv with saveFault := some ⟨"disk full"⟩ } demoDb
    demoBody).1 asha ⟨"disk full"⟩
    (by simp [demoBody, JVal.prop, JVal.truthy])
    (by simp [demoBody, JVal.prop, Student.findOne, demoEnv, demoDb, asha])
    (by simp [demoBody, JVal.prop, Scan.create, Scan.save, demoEnv, asha])

/-! ## `POST /scan`: repeated requests -/

/-- C10: the handler does not deduplicate.  For every directory holding a student with
registration number `r` (non-empty, so that the request is valid) and every scan
collection, two `POST /scan` requests with `regNumber` `r` handled one after the other,
the lookups and the writes succeeding, leave the scan collection with exactly two more
documents than before, both for `r`, and the notification sender is invoked exactly
twice, once per request. -/
theorem postScan_twice (env₁ env₂ : Env) (db : Db) (body : JVal) (r : String)
    (s : Student)
    (hreg : body.prop "regNumber" = .str r) (hr : r ≠ "")
    (hs : s ∈ db.students) (hsr : s.regNumber = r)
    (hfind₁ : env₁.findOneFault = none) (hfind₂ : env₂.findOneFault = none)
    (hsave₁ : env₁.saveFault = none) (hsave₂ : env₂.saveFault = none) :
    ∃ doc₁ doc₂ : Scan,
      (postScan env₁ db body).scans = db.scans ++ [doc₁] ∧
      (postScan env₂ ⟨db.students, (postScan env₁ db body).scans⟩ body).scans =
        db.scans ++ [doc₁, doc₂] ∧
      doc₁.regNumber = r ∧ doc₂.regNumber = r ∧
      (postScan env₂ ⟨db.students, (postScan env₁ db body).scans⟩ body).scans.length =
        db.scans.length + 2 ∧
      (postScan env₁ db body).calls.countP Call.isCreate = 1 ∧
      (postScan env₂ ⟨db.students, (postScan env₁ db body).scans⟩
        body).calls.countP Call.isCreate = 1 ∧
      ((postScan env₁ db body).calls ++
        (postScan env₂ ⟨db.students, (postScan env₁ db body).scans⟩
          body).calls).countP Call.isCreate = 2 := by
  have hvalid : (body.prop "regNumber").truthy = true := by
    rw [hreg]; simp [JVal.truthy, hr]
  have step : ∀ (env : Env) (scans : List Scan), env.findOneFault = none →
      env.saveFault = none →
      ∃ doc : Scan, (postScan env ⟨db.students, scans⟩ body).scans = scans ++ [doc] ∧
        doc.regNumber = r ∧
        (postScan env ⟨db.students, scans⟩ body).calls.countP Call.isCreate = 1 := by
    intro env scans hf hsv
    obtain ⟨s', hfind, -⟩ := @Student.findOne_str_of_mem env _ _ _ hf hs hsr
    rw [postScan_of_truthy env _ body hvalid, hreg]
    simp only [hfind, Scan.create, Scan.save, hsv]
    cases env.create (smsFor env s') <;>
      exact ⟨_, rfl, rfl, by simp [List.countP_cons, Call.isCreate]⟩
  obtain ⟨doc₁, h₁, hd₁, hc₁⟩ := step env₁ db.scans hfind₁ hsave₁
  have h₁' : (postScan env₁ db body).scans = db.scans ++ [doc₁] := h₁
  have hc₁' : (postScan env₁ db body).calls.countP Call.isCreate = 1 := hc₁
  obtain ⟨doc₂, h₂, hd₂, hc₂⟩ := step env₂ (postScan env₁ db body).scans hfind₂ hsave₂
  refine ⟨doc₁, doc₂, h₁', ?_, hd₁, hd₂, ?_, hc₁', hc₂, ?_⟩
  · rw [h₂, h₁']; simp
  · rw [h₂, h₁']; simp
  · rw [List.countP_append, hc₁', hc₂]

/-- C10 in the example scenario: the same request handled twice at the same instant
stores two documents for `S100`. -/
theorem postScan_twice_witness :
    ∃ doc₁ doc₂ : Scan,
      (postScan demoEnv ⟨demoDb.students, (postScan demoEnv demoDb demoBody).scans⟩
        demoBody).scans = demoDb.scans ++ [doc₁, doc₂] ∧
      doc₁.regNumber = "S100" ∧ doc₂.regNumber = "S100" := by
  obtain ⟨doc₁, doc₂, -, h, h₁, h₂, -⟩ :=
    postScan_twice demoEnv demoEnv demoDb demoBody "S100" asha
      (by simp [demoBody, JVal.prop]) (by decide) (by simp [demoDb]) rfl rfl rfl rfl rfl
  exact ⟨doc₁, doc₂, h, h₁, h₂⟩

/-! ## `GET /scan-history` -/

/-- A list sorted newest first that holds exactly three documents with increasing scan
times lists them from the last to the first. -/
theorem Scan.sorted_three {l : List Scan} {a b c : Scan}
    (hab : a.scanTime < b.scanTime) (hbc : b.scanTime < c.scanTime)
    (hsorted : l.Sorted Scan.notOlder) (hperm : l.Perm [a, b, c]) : l = [c, b, a] := by
  have hperm' : l.Perm [c, b, a] :=
    hperm.trans (by
      have h1 : [a, b, c].Perm [a, c, b] := (List.Perm.swap c b []).cons a
      have h2 : [a, c, b].Perm [c, a, b] := List.Perm.swap c a [b]
      have h3 : [c, a, b].Perm [c, b, a] := (List.Perm.swap b a []).cons c
      exact (h1.trans h2).trans h3)
  have hne : [c, b, a].Pairwise (fun x y : Scan => x.scanTime ≠ y.scanTime) := by
    simp only [List.pairwise_cons, List.mem_cons, List.mem_singleton, List.not_mem_nil,
      forall_eq_or_imp, forall_eq, IsEmpty.forall_iff, implies_true, List.Pairwise.nil,
      and_true]
    omega
  have hne' : l.Pairwise (fun x y : Scan => x.scanTime ≠ y.scanTime) :=
    (hperm'.pairwise_iff (fun {x y} (h : x.scanTime ≠ y.scanTime) => h.symm)).2 hne
  have hstrict : l.Sorted (fun x y : Scan => y.scanTime < x.scanTime) :=
    (List.Pairwise.and hsorted hne').imp
      (fun {x y} h => lt_of_le_of_ne h.1 (fun heq => h.2 heq.symm))
  have hstrict' : [c, b, a].Sorted (fun x y : Scan => y.scanTime < x.scanTime) := by
    simp only [List.Sorted, List.pairwise_cons, List.mem_cons, List.mem_singleton,
      List.not_mem_nil, forall_eq_or_imp, forall_eq, IsEmpty.forall_iff, implies_true,
      List.Pairwise.nil, and_true]
    omega
  haveI : IsAntisymm Scan (fun x y : Scan => y.scanTime < x.scanTime) :=
    ⟨fun x y h1 h2 => absurd h1 (not_lt.2 (le_of_lt h2))⟩
  exact List.eq_of_perm_of_sorted hperm' hstrict hstrict'

/-- C5: for every scan collection on which the read succeeds, `GET /scan-history`
responds with status 200 and a list of documents that is a permutation of the whole
collection (nothing dropped, nothing added, no limit) and is ordered by `scanTime`
non-increasing; when the collection holds exactly three documents with scan times
`T1 < T2 < T3`, the response lists them in the order `[T3, T2, T1]`.  The read is the
only call made and the collection is left unchanged. -/
theorem getScanHistory_sorted (env : Env) (db : Db) (hread : env.findFault = none) :
    (getScanHistory env db).response.status = 200 ∧
    (∃ docs : List Scan,
      (getScanHistory env db).response.body = .records docs ∧
      docs.Perm db.scans ∧
      docs.length = db.scans.length ∧
      docs.Pairwise (fun x y => y.scanTime ≤ x.scanTime) ∧
      ∀ a b c : Scan, a.scanTime < b.scanTime → b.scanTime < c.scanTime →
        db.scans.Perm [a, b, c] → docs = [c, b, a]) ∧
    (getScanHistory env db).scans = db.scans ∧
    (getScanHistory env db).calls = [.find] := by
  have key : getScanHistory env db =
      ⟨⟨200, .records (Scan.findSorted db.scans)⟩, db.scans, [.find]⟩ := by
    unfold getScanHistory
    rw [hread]
  rw [key]
  have hperm : (Scan.findSorted db.scans).Perm db.scans :=
    List.perm_insertionSort Scan.notOlder db.scans
  have hsorted : (Scan.findSorted db.scans).Sorted Scan.notOlder :=
    List.sorted_insertionSort Scan.notOlder db.scans
  refine ⟨rfl, ⟨_, rfl, hperm, hperm.length_eq, hsorted, ?_⟩, rfl, rfl⟩
  intro a b c hab hbc h
  exact Scan.sorted_three hab hbc hsorted (hperm.trans h)

/-- C5 on a collection holding scans of times 1, 3 and 2, in that storage order. -/
theorem getScanHistory_sorted_witness :
    (getScanHistory demoEnv
      ⟨[asha], [⟨"S100", "Asha", "+911234567890", 1⟩, ⟨"S100", "Asha", "+911234567890", 3⟩,
        ⟨"S100", "Asha", "+911234567890", 2⟩]⟩).response.status = 200 ∧
    ∃ docs : List Scan,
      (getScanHistory demoEnv
        ⟨[asha], [⟨"S100", "Asha", "+911234567890", 1⟩,
          ⟨"S100", "Asha", "+911234567890", 3⟩,
          ⟨"S100", "Asha", "+911234567890", 2⟩]⟩).response.body = .records docs ∧
      docs = [⟨"S100", "Asha", "+911234567890", 3⟩, ⟨"S100", "Asha", "+911234567890", 2⟩,
        ⟨"S100", "Asha", "+911234567890", 1⟩] := by
  obtain ⟨h200, ⟨docs, hbody, -, -, -, h3⟩, -, -⟩ := getScanHistory_sorted demoEnv
    ⟨[asha], [⟨"S100", "Asha", "+911234567890", 1⟩, ⟨"S100", "Asha", "+911234567890", 3⟩,
      ⟨"S100", "Asha", "+911234567890", 2⟩]⟩ rfl
  refine ⟨h200, docs, hbody, ?_⟩
  exact h3 ⟨"S100", "Asha", "+911234567890", 1⟩ ⟨"S100", "Asha", "+911234567890", 2⟩
    ⟨"S100", "Asha", "+911234567890", 3⟩ (by decide) (by decide)
    ((List.Perm.swap _ _ []).cons _)

end ScanService
